import Mathlib

/-!
Verification development for the trend-tracking repository
(scripts/calculator.py, scripts/data_fetcher.py, scripts/main.py,
scripts/backfill_archive.py).

The Python sources are shallowly embedded below:
pure numeric code is translated to functions over `ℚ` (exact rationals
stand in for Python floats; all numbers involved in the claims are
small decimals, where float and rational arithmetic agree),
pandas DataFrames with columns {date, open, high, low, close} become
`List Bar`, calendar timestamps become a `Date` structure with a
proleptic-Gregorian day-number function used to reason about pandas
weekly ("W", Sunday-anchored) and month-end ("ME") resampling rules,
and Python exceptions become `Except` values.
-/

/-! ## Calendar infrastructure

`Date` models a pandas `Timestamp` at day precision (the sources strip
any time component).  `rdn` is the Rata-Die day number of a date in the
proleptic Gregorian calendar (Rata-Die day 1 = 0001-01-01, a Monday),
so `weekday` returns 0 = Monday .. 6 = Sunday, matching
`datetime.weekday()` in Python. -/

def isLeap (y : Nat) : Bool :=
  y % 4 == 0 && (y % 100 != 0 || y % 400 == 0)

def daysInMonth (y m : Nat) : Nat :=
  match m with
  | 2 => if isLeap y then 29 else 28
  | 4 => 30
  | 6 => 30
  | 9 => 30
  | 11 => 30
  | 0 => 0
  | _ => 31

/-- Days in months `1 .. m-1` of year `y` (0 for January). -/
def daysBeforeMonth (y : Nat) : Nat → Nat
  | 0 => 0
  | m + 1 => daysBeforeMonth y m + daysInMonth y m

/-- Days in all years before year `y` (proleptic Gregorian). -/
def daysBeforeYear (y : Nat) : Nat :=
  365 * (y - 1) + (y - 1) / 4 + (y - 1) / 400 - (y - 1) / 100

structure Date where
  y : Nat
  m : Nat
  d : Nat
deriving DecidableEq

/-- Rata-Die day number: `rdn ⟨1, 1, 1⟩ = 1`, which is a Monday. -/
def rdn (dt : Date) : Nat :=
  daysBeforeYear dt.y + daysBeforeMonth dt.y dt.m + dt.d

/-- Day of week, 0 = Monday .. 6 = Sunday (as `datetime.weekday()`). -/
def weekday (dt : Date) : Nat :=
  (rdn dt + 6) % 7

/-- Total order key for dates (valid dates have `m ≤ 12 < 32`, `d ≤ 31 < 32`,
so the key order is the lexicographic calendar order). -/
def dateKey (dt : Date) : Nat :=
  dt.y * 1024 + dt.m * 32 + dt.d

def ValidDate (dt : Date) : Prop :=
  1 ≤ dt.y ∧ 1 ≤ dt.m ∧ dt.m ≤ 12 ∧ 1 ≤ dt.d ∧ dt.d ≤ daysInMonth dt.y dt.m

instance : DecidablePred ValidDate := fun dt => by
  unfold ValidDate; infer_instance

def nextDay (dt : Date) : Date :=
  if dt.d < daysInMonth dt.y dt.m then ⟨dt.y, dt.m, dt.d + 1⟩
  else if dt.m < 12 then ⟨dt.y, dt.m + 1, 1⟩
  else ⟨dt.y + 1, 1, 1⟩

def addDaysN : Nat → Date → Date
  | 0, dt => dt
  | k + 1, dt => addDaysN k (nextDay dt)

/-- The Sunday on or after `dt`: the right-closed label of the pandas
weekly ("W", i.e. W-SUN) resampling bin containing `dt`. -/
def sundayOnOrAfter (dt : Date) : Date :=
  addDaysN (6 - weekday dt) dt

/-- The last calendar day of `dt`'s month: the label of the pandas
month-end ("ME") resampling bin containing `dt`. -/
def monthEnd (dt : Date) : Date :=
  ⟨dt.y, dt.m, daysInMonth dt.y dt.m⟩

theorem daysInMonth_ge (y m : Nat) (h1 : 1 ≤ m) (h2 : m ≤ 12) :
    28 ≤ daysInMonth y m := by
  interval_cases m <;> first
    | (simp [daysInMonth]; split <;> omega)
    | simp [daysInMonth]

theorem daysBeforeMonth_twelve (y : Nat) :
    daysBeforeMonth y 12 = 334 + (if isLeap y then 1 else 0) := by
  cases h : isLeap y <;> simp [daysBeforeMonth, daysInMonth, h]

theorem daysInMonth_twelve (y : Nat) : daysInMonth y 12 = 31 := rfl

/-- Arithmetic core of `daysBeforeYear_succ` in the common-year,
no-divisibility case (kept separate so `omega` sees a small context). -/
theorem daysBeforeYearAux (y : ℕ) (hy : 1 ≤ y)
    (h4 : ¬y % 4 = 0) (h100 : ¬y % 100 = 0) (h400 : ¬y % 400 = 0) :
    365 * y + y / 4 + y / 400 - y / 100 =
      365 * (y - 1) + (y - 1) / 4 + (y - 1) / 400 - (y - 1) / 100 + 365 + 0 := by
  omega

theorem daysBeforeYear_succ (y : Nat) (hy : 1 ≤ y) :
    daysBeforeYear (y + 1) = daysBeforeYear y + 365 + (if isLeap y then 1 else 0) := by
  have h1 : y - 1 + 1 = y := Nat.succ_pred_eq_of_pos hy
  have e4 := Nat.succ_div (y - 1) 4
  have e100 := Nat.succ_div (y - 1) 100
  have e400 := Nat.succ_div (y - 1) 400
  rw [h1] at e4 e100 e400
  simp only [Nat.dvd_iff_mod_eq_zero] at e4 e100 e400
  simp only [daysBeforeYear, isLeap]
  simp only [Bool.and_eq_true, Bool.or_eq_true, beq_iff_eq, bne_iff_ne, Nat.add_sub_cancel]
  by_cases h4 : y % 4 = 0 <;> by_cases h100 : y % 100 = 0 <;> by_cases h400 : y % 400 = 0 <;>
    simp only [h4, h100, h400] at e4 e100 e400 <;>
    simp only [if_true, if_false] at e4 e100 e400 <;>
    split_ifs with hL
  all_goals first
    | omega
    | exact daysBeforeYearAux y hy h4 h100 h400

theorem rdn_nextDay (dt : Date) (h : ValidDate dt) : rdn (nextDay dt) = rdn dt + 1 := by
  obtain ⟨hy, hm1, hm2, hd1, hd2⟩ := h
  unfold nextDay
  split_ifs with hlt hm
  · simp [rdn]; omega
  · have hd : dt.d = daysInMonth dt.y dt.m := by omega
    simp only [rdn]
    have : daysBeforeMonth dt.y (dt.m + 1) = daysBeforeMonth dt.y dt.m + daysInMonth dt.y dt.m := rfl
    omega
  · have hm12 : dt.m = 12 := by omega
    have hd : dt.d = 31 := by
      rw [hm12, daysInMonth_twelve] at hd2 hlt
      omega
    simp only [rdn, hm12, hd]
    have h1 := daysBeforeYear_succ dt.y hy
    have h2 := daysBeforeMonth_twelve dt.y
    have h3 : daysBeforeMonth dt.y 1 = 0 := rfl
    have h4 : daysBeforeMonth (dt.y + 1) 1 = 0 := rfl
    split_ifs at h1 h2 <;> omega

theorem validDate_mk (y m d : Nat) :
    ValidDate ⟨y, m, d⟩ ↔ (1 ≤ y ∧ 1 ≤ m ∧ m ≤ 12 ∧ 1 ≤ d ∧ d ≤ daysInMonth y m) :=
  Iff.rfl

theorem validDate_nextDay (dt : Date) (h : ValidDate dt) : ValidDate (nextDay dt) := by
  obtain ⟨hy, hm1, hm2, hd1, hd2⟩ := h
  unfold nextDay
  split_ifs with hlt hm <;> rw [validDate_mk]
  · exact ⟨hy, hm1, hm2, by omega, hlt⟩
  · refine ⟨hy, by omega, by omega, by omega, ?_⟩
    have := daysInMonth_ge dt.y (dt.m + 1) (by omega) (by omega)
    omega
  · refine ⟨by omega, by omega, by omega, by omega, ?_⟩
    have := daysInMonth_ge (dt.y + 1) 1 (by omega) (by omega)
    omega

theorem rdn_addDaysN (k : Nat) (dt : Date) (h : ValidDate dt) :
    rdn (addDaysN k dt) = rdn dt + k ∧ ValidDate (addDaysN k dt) := by
  induction k generalizing dt with
  | zero => exact ⟨rfl, h⟩
  | succ n ih =>
    have h1 := rdn_nextDay dt h
    have h2 := validDate_nextDay dt h
    have h3 := ih (nextDay dt) h2
    simp only [addDaysN]
    exact ⟨by omega, h3.2⟩

/-- A pandas weekly ("W") bin label is always a Sunday. -/
theorem weekday_sundayOnOrAfter (dt : Date) (h : ValidDate dt) :
    weekday (sundayOnOrAfter dt) = 6 := by
  unfold sundayOnOrAfter
  have h1 := (rdn_addDaysN (6 - weekday dt) dt h).1
  unfold weekday at *
  omega

/-! ## Data model

A `Bar` is one row of the canonical DataFrame with columns
{date, close, open, high, low} (`opn` models the "open" column, which
is a reserved word in Lean).  A Canonical Series is a `List Bar`;
the sources sort it ascending by date, embedded as an insertion sort
by the calendar order `barLe`. -/

structure Bar where
  date : Date
  close : ℚ
  opn : ℚ
  high : ℚ
  low : ℚ
deriving DecidableEq

def barLe (a b : Bar) : Prop := dateKey a.date ≤ dateKey b.date

instance : DecidableRel barLe := fun _ _ => Nat.decLe _ _

/-- `df.sort_values("date")`; on a Canonical Series (strictly
increasing, hence duplicate-free, dates) any comparison sort agrees
with pandas' sort, and on an already sorted series it is the
identity. -/
def sortBars (df : List Bar) : List Bar :=
  List.insertionSort barLe df

/-! ## Calculator (scripts/calculator.py)

`Calculator` methods become functions taking the `lookback_days`
constructor argument (default 250) explicitly.  The Python status
strings "YES"/"NO" (spec: ABOVE/BELOW) are kept verbatim. -/

/-- `Calculator.calculate_ma20`: `None` for fewer than 20 prices, else
`sum(prices[-20:]) / 20`. -/
def calculate_ma20 (prices : List ℚ) : Option ℚ :=
  if prices.length < 20 then none
  else some ((prices.drop (prices.length - 20)).sum / 20)

/-- `Calculator.calculate_status`: "YES" iff `current_price >= ma20`. -/
def calculate_status (currentPrice ma20 : ℚ) : String :=
  if currentPrice ≥ ma20 then "YES" else "NO"

/-- `Calculator.calculate_deviation`: 0 when `ma20 == 0`, else
`((current_price / ma20) - 1) * 100`. -/
def calculate_deviation (currentPrice ma20 : ℚ) : ℚ :=
  if ma20 = 0 then 0 else (currentPrice / ma20 - 1) * 100

/-- `Calculator.calculate_change`: 0 when `prev_close == 0`, else
`((current_price / prev_close) - 1) * 100`. -/
def calculate_change (currentPrice prevClose : ℚ) : ℚ :=
  if prevClose = 0 then 0 else (currentPrice / prevClose - 1) * 100

/-- The trailing 20-bar MA evaluated at index `i` (closes `i-19 .. i`),
i.e. `sum(closes[i-19:i+1]) / 20` in the scan loop. -/
def histMA20 (closes : List ℚ) (i : Nat) : ℚ :=
  ((closes.drop (i - 19)).take 20).sum / 20

/-- The recomputed historical status at index `i` in the scan loop:
`"YES" if closes[i] >= ma20_i else "NO"`. -/
def histStatus (closes : List ℚ) (i : Nat) : String :=
  if closes.getD i 0 ≥ histMA20 closes i then "YES" else "NO"

/-- Loop body of `Calculator.find_status_change_date`: walks the given
descending index list; `if i < 19: break`; at the first index whose
recomputed status differs from the current status, provided
`i + 1 < n`, returns day `i+1`'s date and the MA20 of day `i+1`
(`sum(closes[i-18:i+2]) / 20`). -/
def statusChangeScan (closes : List ℚ) (dates : List Date) (cur : String) (n : Nat) :
    List Nat → Option Date × Option ℚ
  | [] => (none, none)
  | i :: rest =>
    if i < 19 then (none, none)
    else if histStatus closes i ≠ cur then
      if i + 1 < n then
        (some (dates.getD (i + 1) ⟨0, 0, 0⟩), some (((closes.drop (i - 18)).take 20).sum / 20))
      else
        statusChangeScan closes dates cur n rest
    else
      statusChangeScan closes dates cur n rest

/-- The descending index list `range(n-2, max(n - lookback - 1, 19), -1)`
of the scan loop (Python's negative `n - lookback - 1` and Nat
truncation agree after the `max` with 19). -/
def scanIndices (n lookback : Nat) : List Nat :=
  (List.range' (max (n - lookback - 1) 19 + 1) (n - 2 - max (n - lookback - 1) 19)).reverse

/-- `Calculator.find_status_change_date` (returns the pair
(change date, MA20 at the change date)). -/
def find_status_change_date (lookback : Nat) (df : List Bar) (cur : String) :
    Option Date × Option ℚ :=
  if df.length < 21 then (none, none)
  else
    let sorted := sortBars df
    let closes := sorted.map Bar.close
    statusChangeScan closes (sorted.map Bar.date) cur closes.length
      (scanIndices closes.length lookback)

/-- `Calculator.calculate_interval_change`: `None` when the reference
MA20 is absent or 0. -/
def calculate_interval_change (currentPrice : ℚ) (changeMA20 : Option ℚ) : Option ℚ :=
  match changeMA20 with
  | none => none
  | some v => if v = 0 then none else some ((currentPrice / v - 1) * 100)

/-- One timeframe of `Calculator.calculate_big_cycle_status`: the block
is duplicated verbatim in the source for the weekly and the monthly
DataFrame; "-" when the frame is missing or shorter than 20 periods,
else the status of the current price against the mean of
`closes[-19:] + [current_price]`. -/
def bigCycleToken (currentPrice : ℚ) (df? : Option (List Bar)) : String :=
  match df? with
  | none => "-"
  | some df =>
    if 20 ≤ df.length then
      let closes := df.map Bar.close
      let prices := if 19 ≤ closes.length
        then closes.drop (closes.length - 19) ++ [currentPrice]
        else closes ++ [currentPrice]
      if 20 ≤ prices.length then
        if currentPrice ≥ (prices.drop (prices.length - 20)).sum / 20 then "YES" else "NO"
      else "-"
    else "-"

/-- `Calculator.calculate_big_cycle_status`: the weekly and monthly
tokens joined as `f"{weekly_status}-{monthly_status}"`. -/
def calculate_big_cycle_status (currentPrice : ℚ)
    (weekly monthly : Option (List Bar)) : String :=
  bigCycleToken currentPrice weekly ++ "-" ++ bigCycleToken currentPrice monthly

/-- The result dictionary of `Calculator.calculate_all_metrics`. -/
structure Metrics where
  current_price : Option ℚ
  prev_close : Option ℚ
  ma20 : Option ℚ
  status : Option String
  change : Option ℚ
  deviation : Option ℚ
  change_date : Option Date
  change_price : Option ℚ
  interval_change : Option ℚ
  big_cycle_status : String
  error : Option String
deriving DecidableEq

/-- The initial result dictionary with `error = "数据异常"` (data
anomaly): returned for a `None`/empty DataFrame. -/
def anomalyMetrics : Metrics :=
  Metrics.mk none none none none none none none none none "-" (some "数据异常")

/-- The initial result dictionary with `error = "数据不足"` (data
insufficiency): returned for fewer than 20 bars. -/
def insufficientMetrics : Metrics :=
  Metrics.mk none none none none none none none none none "-" (some "数据不足")

/-- `Calculator.calculate_all_metrics` up to (but excluding) the
big-cycle status, which is the only field depending on the weekly and
monthly frames; all early-error returns happen here. -/
def calcDailyCore (lookback : Nat) (df0 : List Bar) (currentPrice : Option ℚ) : Metrics :=
  if df0.isEmpty then anomalyMetrics
  else
    let df := sortBars df0
    if df.length < 20 then insufficientMetrics
    else
      let closes := df.map Bar.close
      let cp := match currentPrice with
        | some p => p
        | none => closes.getLastD 0
      let prices := match currentPrice with
        | some p => closes.drop (closes.length - 19) ++ [p]
        | none => closes.drop (closes.length - 20)
      let prevClose := if 2 ≤ closes.length then closes.getD (closes.length - 2) 0
        else closes.getLastD 0
      match calculate_ma20 prices with
      | none =>
        Metrics.mk (some cp) (some prevClose) none none none none none none none "-"
          (some "MA20计算失败")
      | some ma =>
        let st := calculate_status cp ma
        let scan := find_status_change_date lookback df st
        Metrics.mk (some cp) (some prevClose) (some ma) (some st)
          (some (calculate_change cp prevClose))
          (some (calculate_deviation cp ma))
          scan.1 scan.2
          (calculate_interval_change cp scan.2)
          "-" none

/-- Replace the big-cycle field of a metrics record. -/
def setBigCycle (m : Metrics) (bc : String) : Metrics :=
  Metrics.mk m.current_price m.prev_close m.ma20 m.status m.change m.deviation
    m.change_date m.change_price m.interval_change bc m.error

/-- `Calculator.calculate_all_metrics`: on the success path (no error)
the big-cycle status is computed from the current price and the weekly
and monthly frames; every error path returns before that point with
`big_cycle_status = "-"`. -/
def calculate_all_metrics (lookback : Nat) (df0 : List Bar) (currentPrice : Option ℚ)
    (weekly monthly : Option (List Bar)) : Metrics :=
  let core := calcDailyCore lookback df0 currentPrice
  if core.error.isSome then core
  else setBigCycle core (calculate_big_cycle_status (core.current_price.getD 0) weekly monthly)

/-! ## Ranking engine (`Calculator.sort_by_deviation`)

A result dictionary entering the ranking step is abstracted to its
fields relevant here: an identifying tag (`id`, standing for the
instrument code), `deviation`, `error` and the `rank` the step
assigns. -/

structure RItem where
  id : Nat
  deviation : Option ℚ
  error : Option String
  rank : Nat
deriving DecidableEq

/-- The Python sort key `x.get("deviation", float("-inf"))`; the sort
is applied only to items whose deviation is present, so the default is
never consulted (0 stands in for the unrepresentable -inf). -/
def devKey (r : RItem) : ℚ := r.deviation.getD 0

/-- Descending-by-deviation comparison: `list.sort(key=..., reverse=True)`
is the stable sort placing higher deviations first. -/
def devGe (a b : RItem) : Prop := devKey b ≤ devKey a

instance : DecidableRel devGe := fun a b => inferInstanceAs (Decidable (devKey b ≤ devKey a))

instance : IsTotal RItem devGe := ⟨fun a b => le_total (devKey b) (devKey a)⟩

instance : IsTrans RItem devGe := ⟨fun _ _ _ hab hbc => le_trans hbc hab⟩

def setRank (r : RItem) (k : Nat) : RItem := RItem.mk r.id r.deviation r.error k

/-- `for i, item in enumerate(items, start): item["rank"] = i`. -/
def assignRanks (start : Nat) (l : List RItem) : List RItem :=
  List.zipWith setRank l (List.range' start l.length)

/-- `Calculator.sort_by_deviation`: valid items (deviation present)
sorted descending by deviation and ranked from 1; error items
(deviation `None`) appended afterwards, ranked from `#valid + 1`. -/
def sort_by_deviation (items : List RItem) : List RItem :=
  let valid := items.filter (fun r => r.deviation.isSome)
  let errs := items.filter (fun r => !r.deviation.isSome)
  let sorted := List.insertionSort devGe valid
  assignRanks 1 sorted ++ assignRanks (sorted.length + 1) errs

/-! ## Pipeline failure policy (`main` in scripts/main.py) -/

def failedCount (rs : List RItem) : Nat :=
  (rs.filter (fun r => r.error.isSome)).length

/-- The abort decision of `main`: with at least one tracked instrument,
abort when `failed / total > 1/3` (the float comparison agrees with the
exact rational one at the instrument counts involved); additionally
abort when every instrument failed.  Page generation and rank-store
updates happen strictly after this check in the source, so `true`
means the run produces no output. -/
def mainAborts (rs : List RItem) : Bool :=
  (decide (0 < rs.length) &&
    decide ((failedCount rs : ℚ) / (rs.length : ℚ) > 1 / 3))
  || (failedCount rs == rs.length)

/-! ## Resampler

`fetch_weekly_data` / `fetch_monthly_data` (non-CN branch) derive the
weekly/monthly frame by
`daily_df.resample("W" / "ME").agg({open: first, high: max, low: min,
close: last}).dropna()`.  pandas "W" bins are right-closed weeks
labelled by their Sunday; "ME" bins are calendar months labelled by
their last day; `dropna()` removes the all-NaN rows of empty bins, so
exactly the non-empty bins survive, in ascending label order. -/

def listMax : List ℚ → ℚ
  | [] => 0
  | a :: t => t.foldl max a

def listMin : List ℚ → ℚ
  | [] => 0
  | a :: t => t.foldl min a

/-- The aggregated bar of one non-empty resampling bin with label `L`:
open = first member's open, high = max, low = min, close = last
member's close (the defaults are never consulted: bins are formed from
their members). -/
def aggBar (L : Date) (grp : List Bar) : Bar :=
  Bar.mk L ((grp.map Bar.close).getLastD 0) ((grp.map Bar.opn).headD 0)
    (listMax (grp.map Bar.high)) (listMin (grp.map Bar.low))

/-- `df.resample(...).agg(...).dropna()` for a bin-label function:
one aggregated bar per label occurring in the input (empty bins are
omitted), in order of occurrence (ascending for a date-sorted input,
since both label functions are monotone). -/
def resampleBy (label : Date → Date) (bars : List Bar) : List Bar :=
  ((bars.map (fun b => label b.date)).dedup).map
    (fun L => aggBar L (bars.filter (fun b => decide (label b.date = L))))

/-- The `resample("W")` branch of `DataFetcher.fetch_weekly_data`. -/
def resampleWeekly (bars : List Bar) : List Bar :=
  resampleBy sundayOnOrAfter bars

/-- The `resample("ME")` branch of `DataFetcher.fetch_monthly_data`. -/
def resampleMonthly (bars : List Bar) : List Bar :=
  resampleBy monthEnd bars

/-- Modelled from the spec: `DataFetcher.process_weekly_data`, called by
`main.process_indices` and `backfill_archive.process_indices_at_date`,
is absent from the sources; per spec section 4.4 the Resampler derives
the weekly Series by the same deterministic calendar-window
aggregation as the `resample("W")` branch of `fetch_weekly_data`. -/
def process_weekly_data (bars : List Bar) : List Bar :=
  resampleWeekly bars

/-- Modelled from the spec: `DataFetcher.process_monthly_data` (see
`process_weekly_data`), the month-end analogue. -/
def process_monthly_data (bars : List Bar) : List Bar :=
  resampleMonthly bars

/-! ## Backfill simulator (scripts/backfill_archive.py) -/

/-- `simulate_data_at_date`: keep the bars dated on or before the
target date (a pure filter on a copy). -/
def simulate_data_at_date (df : List Bar) (target : Date) : List Bar :=
  df.filter (fun b => decide (dateKey b.date ≤ dateKey target))

/-- The Metrics Snapshot `process_indices_at_date` computes for one
instrument at one target date: the full daily series and its derived
weekly/monthly series are each truncated at the target date, then the
Calculator runs on the truncated views. -/
def backfillSnapshotAtDate (cs : List Bar) (target : Date) : Metrics :=
  calculate_all_metrics 250 (simulate_data_at_date cs target) none
    (some (simulate_data_at_date (process_weekly_data cs) target))
    (some (simulate_data_at_date (process_monthly_data cs) target))

/-- The Metrics Snapshot the live pipeline (`main.process_indices`)
computes on a series that naturally ends at the target date: the
weekly/monthly series are derived from that series itself. -/
def liveSnapshotAtDate (cs : List Bar) (target : Date) : Metrics :=
  calculate_all_metrics 250 (simulate_data_at_date cs target) none
    (some (process_weekly_data (simulate_data_at_date cs target)))
    (some (process_monthly_data (simulate_data_at_date cs target)))

/-! ## Fetcher (scripts/data_fetcher.py)

Python exceptions are modelled as `Except PyErr`; a provider response
is `Except PyErr (Option RawFrame)` (`.ok none` = the provider
returned `None` or an empty frame).  Column normalization (the
bilingual rename tables) is abstracted to presence flags: a missing
open/high/low column is backfilled with the close column, and a frame
without a date or close column counts as structurally absent.  Row
values are assumed numeric (the claims under scrutiny involve
well-formed secondary responses). -/

inductive PyErr
  | timeout
  | connectionError
  | valueError
  | keyError
deriving DecidableEq

structure RawFrame where
  hasDate : Bool
  hasClose : Bool
  hasOpen : Bool
  hasHigh : Bool
  hasLow : Bool
  rows : List Bar
deriving DecidableEq

/-- Column normalization + `sort_values("date").tail(days)` shared by
the HK fetchers (`opn`/`high`/`low` of a row are only meaningful when
the corresponding column flag is set; otherwise the close is used). -/
def normalizeFrame (f : RawFrame) (days : Nat) : List Bar :=
  let bars := f.rows.map (fun r =>
    Bar.mk r.date r.close (if f.hasOpen then r.opn else r.close)
      (if f.hasHigh then r.high else r.close)
      (if f.hasLow then r.low else r.close))
  let s := sortBars bars
  s.drop (s.length - days)

/-- `DataFetcher._fetch_hk_index_sina`: the secondary (Sina) strategy;
any exception, empty frame or missing required column yields `None`. -/
def fetch_hk_index_sina (resp : Except PyErr (Option RawFrame)) (days : Nat) :
    Option (List Bar) :=
  match resp with
  | .error _ => none
  | .ok none => none
  | .ok (some f) =>
    if f.rows.isEmpty then none
    else if f.hasDate && f.hasClose then some (normalizeFrame f days)
    else none

/-- The observable trace of one `_fetch_hk_index` call: its return
value, how many times the primary provider was invoked, and the delays
slept between attempts.  The source has no retry loop and no sleep:
the primary is invoked at exactly one call site, executed once. -/
structure FetchTrace where
  result : Option (List Bar)
  primaryCalls : Nat
  sleeps : List Nat
deriving DecidableEq

/-- `DataFetcher._fetch_hk_index`: call the primary (East-Money)
provider once; on any exception, an empty frame or missing required
columns fall back to the secondary (Sina) strategy, else normalize and
return. -/
def fetch_hk_index (primary secondary : Except PyErr (Option RawFrame)) (days : Nat) :
    FetchTrace :=
  match primary with
  | .error _ => FetchTrace.mk (fetch_hk_index_sina secondary days) 1 []
  | .ok none => FetchTrace.mk (fetch_hk_index_sina secondary days) 1 []
  | .ok (some f) =>
    if f.rows.isEmpty then FetchTrace.mk (fetch_hk_index_sina secondary days) 1 []
    else if f.hasDate && f.hasClose then FetchTrace.mk (some (normalizeFrame f days)) 1 []
    else FetchTrace.mk (fetch_hk_index_sina secondary days) 1 []

/-- Modelled from the spec: the number of primary calls the spec's
retry discipline prescribes before falling back — "Retry a bounded
number of times", i.e. one initial attempt plus `budget` retries. -/
def specRetryCalls (budget : Nat) : Nat := budget + 1

/-- Modelled from the spec: the prescribed inter-attempt delay schedule,
"retries sleep for attempt-index × base-delay between tries". -/
def specRetryDelays (budget base : Nat) : List Nat :=
  (List.range' 1 budget).map (fun i => i * base)

/-- The source designators `DataFetcher.fetch_index` dispatches on. -/
def knownSources : List String :=
  ["cn_index", "spot_price", "precious_metal", "commodity_international",
   "ths", "ths_commodity", "eastmoney", "eastmoney_sector", "hk", "us",
   "jp", "commodity"]

/-- The body of the `try:` block of `DataFetcher.fetch_index`: dispatch
on the source designator (an unknown designator is logged and `None`
returned, without raising); the chosen strategy may raise. -/
def fetch_index_body (strategies : String → Except PyErr (Option (List Bar)))
    (source : String) : Except PyErr (Option (List Bar)) :=
  if source ∈ knownSources then strategies source else Except.ok none

/-- `DataFetcher.fetch_index`: the whole body is wrapped in
`try: ... except Exception: return None`, so every exception of every
strategy is converted to `None`. -/
def fetch_index (strategies : String → Except PyErr (Option (List Bar)))
    (source : String) : Option (List Bar) :=
  match fetch_index_body strategies source with
  | .ok r => r
  | .error _ => none

/-- `fetch_index` as its callers observe it: a call that never raises
(the top-level handler catches every exception class). -/
def fetch_index_run (strategies : String → Except PyErr (Option (List Bar)))
    (source : String) : Except PyErr (Option (List Bar)) :=
  Except.ok (fetch_index strategies source)

/-! ## Concrete series and frames used in the claim evaluations -/

def C1df : List Bar :=
  (List.range 20).map (fun i => Bar.mk ⟨2025, 1, i + 1⟩ (if i = 19 then 10 else 9) 0 0 0)

def C2df : List Bar :=
  (List.range 21).map (fun i =>
    Bar.mk ⟨2025, 1, i + 1⟩ (if i < 19 then 10 else if i = 19 then 0 else 100) 0 0 0)

/-- Modelled from the spec: the big-cycle MA obtained by "substituting
the current price for the most recent period's close before
averaging" — the latest 20-period window with its last close replaced
by the current price. -/
def specSubstituteMA20 (cp : ℚ) (closes : List ℚ) : ℚ :=
  (((closes.drop (closes.length - 20)).take 19) ++ [cp]).sum / 20

def C7w : List Bar :=
  (List.range 20).map (fun i => Bar.mk ⟨2025, 1, i + 1⟩ (if i = 0 then 0 else 20) 0 0 0)

def C3sec : RawFrame :=
  RawFrame.mk true true true true true
    ((List.range 25).map (fun i => Bar.mk ⟨2025, 1, i + 1⟩ 7 2 3 4))

/-- Forget the rank an item carries (for stating which items, as
(id, deviation, error) records, appear where in the ranking output). -/
def stripRank (r : RItem) : RItem := RItem.mk r.id r.deviation r.error 0

def C5items : List RItem :=
  [RItem.mk 1 (some 5) none 0, RItem.mk 2 none (some "数据异常") 0,
   RItem.mk 3 (some 7) none 0, RItem.mk 4 (some 5) none 0]

def C8rs : List RItem :=
  [RItem.mk 1 (some 5) none 0, RItem.mk 2 none (some "数据异常") 0,
   RItem.mk 3 (some 7) none 0]

/-- 20 consecutive Wednesdays (2025-01-01 .. 2025-05-14), close 10. -/
def C9cs : List Bar :=
  [⟨2025,1,1⟩, ⟨2025,1,8⟩, ⟨2025,1,15⟩, ⟨2025,1,22⟩, ⟨2025,1,29⟩,
   ⟨2025,2,5⟩, ⟨2025,2,12⟩, ⟨2025,2,19⟩, ⟨2025,2,26⟩,
   ⟨2025,3,5⟩, ⟨2025,3,12⟩, ⟨2025,3,19⟩, ⟨2025,3,26⟩,
   ⟨2025,4,2⟩, ⟨2025,4,9⟩, ⟨2025,4,16⟩, ⟨2025,4,23⟩, ⟨2025,4,30⟩,
   (⟨2025,5,7⟩ : Date), (⟨2025,5,14⟩ : Date)].map (fun d => Bar.mk d 10 10 10 10)

def C10wit : List Bar :=
  [Bar.mk ⟨2025, 1, 1⟩ 1 2 3 4, Bar.mk ⟨2025, 1, 8⟩ 5 6 7 8]

/-! ## Theorems -/

theorem calculate_ma20_of_len20 (prices : List ℚ) (h : prices.length = 20) :
    calculate_ma20 prices = some (prices.sum / 20) := by
  simp only [calculate_ma20, h]
  norm_num

theorem calcDailyCore_ma20 (df : List Bar) (p : ℚ) (h20 : 20 ≤ df.length)
    (hs : sortBars df = df) :
    (calcDailyCore 250 df none).ma20 =
      some (((df.map Bar.close).drop (df.length - 20)).sum / 20) ∧
    (calcDailyCore 250 df (some p)).ma20 =
      some ((((df.map Bar.close).drop (df.length - 19)).sum + p) / 20) := by
  have hne : df.isEmpty = false := by
    cases df with
    | nil => simp at h20
    | cons a t => rfl
  have hlen : (df.map Bar.close).length = df.length := List.length_map df Bar.close
  have hnl : ¬ df.length < 20 := by omega
  constructor
  · simp only [calcDailyCore, hne, Bool.false_eq_true, if_false, hs, hnl, hlen]
    rw [calculate_ma20_of_len20 _ (by rw [List.length_drop, hlen]; omega)]
  · simp only [calcDailyCore, hne, Bool.false_eq_true, if_false, hs, hnl, hlen]
    rw [calculate_ma20_of_len20 _
      (by rw [List.length_append, List.length_drop, hlen, List.length_singleton]; omega)]
    rw [List.sum_append, List.sum_singleton]

theorem calcDailyCore_insufficient (lb : Nat) (df : List Bar) (cp : Option ℚ)
    (hne : df ≠ []) (hlt : df.length < 20) (hs : sortBars df = df) :
    calcDailyCore lb df cp = insufficientMetrics := by
  have hne2 : df.isEmpty = false := by
    cases df with
    | nil => exact absurd rfl hne
    | cons a t => rfl
  simp only [calcDailyCore, hne2, Bool.false_eq_true, if_false, hs, hlt, if_true]

theorem calculate_all_metrics_core_fields (lb : Nat) (df : List Bar) (cp : Option ℚ)
    (w m : Option (List Bar)) :
    (calculate_all_metrics lb df cp w m).current_price = (calcDailyCore lb df cp).current_price ∧
    (calculate_all_metrics lb df cp w m).prev_close = (calcDailyCore lb df cp).prev_close ∧
    (calculate_all_metrics lb df cp w m).ma20 = (calcDailyCore lb df cp).ma20 ∧
    (calculate_all_metrics lb df cp w m).status = (calcDailyCore lb df cp).status ∧
    (calculate_all_metrics lb df cp w m).change = (calcDailyCore lb df cp).change ∧
    (calculate_all_metrics lb df cp w m).deviation = (calcDailyCore lb df cp).deviation ∧
    (calculate_all_metrics lb df cp w m).change_date = (calcDailyCore lb df cp).change_date ∧
    (calculate_all_metrics lb df cp w m).change_price = (calcDailyCore lb df cp).change_price ∧
    (calculate_all_metrics lb df cp w m).interval_change = (calcDailyCore lb df cp).interval_change ∧
    (calculate_all_metrics lb df cp w m).error = (calcDailyCore lb df cp).error := by
  simp only [calculate_all_metrics, setBigCycle]
  split_ifs <;> exact ⟨rfl, rfl, rfl, rfl, rfl, rfl, rfl, rfl, rfl, rfl⟩

theorem calculate_all_metrics_of_error (lb : Nat) (df : List Bar) (cp : Option ℚ)
    (w m : Option (List Bar)) (h : (calcDailyCore lb df cp).error.isSome = true) :
    calculate_all_metrics lb df cp w m = calcDailyCore lb df cp := by
  simp only [calculate_all_metrics, h, if_true]

/-- Claim C1 (amended): for every date-sorted series with at least 20
bars the snapshot's MA20 is the mean of the 20 most recent closes, and
with a synthetic override price it is the mean of the override price
plus the 19 most recent closes; a nonempty series with fewer than 20
bars yields the data-insufficiency snapshot (error "数据不足", no
further metric fields computed). -/
theorem C1_amended (df : List Bar) (w m : Option (List Bar)) (p : ℚ)
    (hs : sortBars df = df) :
    (20 ≤ df.length →
      (calculate_all_metrics 250 df none w m).ma20 =
        some (((df.map Bar.close).drop (df.length - 20)).sum / 20) ∧
      (calculate_all_metrics 250 df (some p) w m).ma20 =
        some ((((df.map Bar.close).drop (df.length - 19)).sum + p) / 20)) ∧
    (df ≠ [] → df.length < 20 →
      calculate_all_metrics 250 df none w m = insufficientMetrics ∧
      calculate_all_metrics 250 df (some p) w m = insufficientMetrics) := by
  constructor
  · intro h20
    have h1 := calcDailyCore_ma20 df p h20 hs
    have h2 := (calculate_all_metrics_core_fields 250 df none w m).2.2.1
    have h3 := (calculate_all_metrics_core_fields 250 df (some p) w m).2.2.1
    exact ⟨h2.trans h1.1, h3.trans h1.2⟩
  · intro hne hlt
    have h1 := calcDailyCore_insufficient 250 df none hne hlt hs
    have h2 := calcDailyCore_insufficient 250 df (some p) hne hlt hs
    constructor
    · rw [calculate_all_metrics_of_error 250 df none w m (by rw [h1]; rfl), h1]
    · rw [calculate_all_metrics_of_error 250 df (some p) w m (by rw [h2]; rfl), h2]

/-- Claim C1 (counterexample): an empty series — which has fewer than
20 bars — is marked with the data-anomaly error "数据异常", not the
data-insufficiency error, refuting the claim's error clause for the
empty series. -/
theorem C1_counterexample :
    calculate_all_metrics 250 [] none none none = anomalyMetrics ∧
    anomalyMetrics.error = some "数据异常" ∧
    calculate_all_metrics 250 [] none none none ≠ insufficientMetrics := by
  exact ⟨rfl, rfl, by decide⟩

/-- Claim C1 (witness): the 20-bar series with closes 19 × 9 and one
10 has MA20 = 181/20 = 9.05, and with override price 11 it has
MA20 = (9 × 18 + 10 + 11)/20 = 183/20 = 9.15. -/
theorem C1_witness :
    (calculate_all_metrics 250 C1df none none none).ma20 = some (181 / 20) ∧
    (calculate_all_metrics 250 C1df (some 11) none none).ma20 = some (183 / 20) := by
  have h := (C1_amended C1df none none 11 (by decide)).1 (by decide)
  refine ⟨h.1.trans ?_, h.2.trans ?_⟩ <;>
    norm_num [C1df, List.range_succ]

theorem calcDailyCore_status (df : List Bar) (h20 : 20 ≤ df.length)
    (hs : sortBars df = df) :
    (calcDailyCore 250 df none).status =
      some (calculate_status ((df.map Bar.close).getLastD 0)
        (((df.map Bar.close).drop (df.length - 20)).sum / 20)) := by
  have hne : df.isEmpty = false := by
    cases df with
    | nil => simp at h20
    | cons a t => rfl
  have hlen : (df.map Bar.close).length = df.length := List.length_map df Bar.close
  have hnl : ¬ df.length < 20 := by omega
  simp only [calcDailyCore, hne, Bool.false_eq_true, if_false, hs, hnl, hlen]
  rw [calculate_ma20_of_len20 _ (by rw [List.length_drop, hlen]; omega)]

/-- Claim C2 (code-bug evaluation): on a 21-bar series whose recomputed
20-bar status is BELOW at bar 19 and ABOVE at bar 20 — current status
ABOVE — the scan returns no change date at all, although the claim
(and spec sections 8/9, which declare this scenario binding) require
day 20's date: the loop `range(n-2, max(n-251, 19), -1)` never visits
index 19. -/
theorem C2_code_eval :
    histStatus (C2df.map Bar.close) 19 = "NO" ∧
    histStatus (C2df.map Bar.close) 20 = "YES" ∧
    (calculate_all_metrics 250 C2df none none none).status = some "YES" ∧
    find_status_change_date 250 C2df "YES" = (none, none) := by
  refine ⟨?_, ?_, ?_, by decide⟩
  · norm_num [histStatus, histMA20, C2df, List.range_succ]
  · norm_num [histStatus, histMA20, C2df, List.range_succ]
  · rw [(calculate_all_metrics_core_fields 250 C2df none none none).2.2.2.1,
      calcDailyCore_status C2df (by decide) (by decide)]
    norm_num [C2df, calculate_status, List.range_succ]

/-- Claim C6 (counterexample): with MA20 = 0 the deviation is defined
as 0 although the current price 1 differs from MA20, and with a
negative MA20 (-10) the deviation is negative although the current
price 5 exceeds MA20 — refuting the zero-iff and sign clauses as
stated for every snapshot with a computed MA20. -/
theorem C6_counterexample :
    (calculate_deviation 1 0 = 0 ∧ (1 : ℚ) ≠ 0) ∧
    (calculate_deviation 5 (-10) < 0 ∧ (-10 : ℚ) < 5) := by
  refine ⟨⟨by norm_num [calculate_deviation], by norm_num⟩,
    ⟨by norm_num [calculate_deviation], by norm_num⟩⟩

/-- Claim C6 (amended): for a positive MA20, Deviation% is exactly zero
iff the current price equals MA20 and is positive exactly when the
current price exceeds MA20; when MA20 = 0 the deviation is defined as
0 (regardless of the current price). -/
theorem C6_amended (cp ma : ℚ) (h : 0 < ma) :
    (calculate_deviation cp ma = 0 ↔ cp = ma) ∧
    (0 < calculate_deviation cp ma ↔ ma < cp) ∧
    calculate_deviation cp 0 = 0 := by
  have hne : ma ≠ 0 := ne_of_gt h
  refine ⟨?_, ?_, by norm_num [calculate_deviation]⟩
  · unfold calculate_deviation
    rw [if_neg hne, mul_eq_zero, sub_eq_zero, div_eq_one_iff_eq hne]
    simp
  · unfold calculate_deviation
    rw [if_neg hne, mul_pos_iff_of_pos_right (by norm_num : (0:ℚ) < 100), sub_pos,
      one_lt_div h]

/-- Claim C6 (witness): at current price 2 and MA20 = 1 the deviation
is positive and nonzero; at price 1 it is zero. -/
theorem C6_witness :
    (calculate_deviation 2 1 = 0 ↔ (2 : ℚ) = 1) ∧
    (0 < calculate_deviation 2 1 ↔ (1 : ℚ) < 2) := by
  have h := C6_amended 2 1 (by norm_num)
  exact ⟨h.1, h.2.1⟩

/-- Claim C7 (counterexample): a 20-period weekly series with closes
0, 20 × 19 and current price 19.  Substituting the current price for
the most recent close gives MA 379/20 = 18.95 ≤ 19, so the claim
demands ABOVE; the code appends the current price to the 19 most
recent closes (MA 399/20 = 19.95 > 19) and reports BELOW ("NO"). -/
theorem C7_counterexample :
    calculate_big_cycle_status 19 (some C7w) none = "NO--" ∧
    specSubstituteMA20 19 (C7w.map Bar.close) ≤ 19 ∧
    20 ≤ C7w.length := by
  refine ⟨?_, ?_, by decide⟩
  · norm_num [calculate_big_cycle_status, bigCycleToken, C7w, List.range_succ]
    rfl
  · norm_num [specSubstituteMA20, C7w, List.range_succ]

/-- Claim C7 (amended): for a weekly or monthly series with at least 20
periods, the big-cycle token compares the current price against the
mean of the current price appended to the 19 most recent period closes
(the latest close stays in the window; nothing is substituted):
ABOVE ("YES") when current ≥ that mean, else BELOW ("NO"); a missing
series or fewer than 20 periods yields "-", and the status string is
the weekly and monthly tokens joined by "-". -/
theorem C7_amended (cp : ℚ) (w : List Bar) (hw : 20 ≤ w.length) :
    bigCycleToken cp (some w) =
      (if cp ≥ (((w.map Bar.close).drop (w.length - 19)).sum + cp) / 20
       then "YES" else "NO") ∧
    (∀ w' : List Bar, w'.length < 20 → bigCycleToken cp (some w') = "-") ∧
    bigCycleToken cp none = "-" ∧
    (∀ wk mo : Option (List Bar), calculate_big_cycle_status cp wk mo =
      bigCycleToken cp wk ++ "-" ++ bigCycleToken cp mo) := by
  have hlen : (w.map Bar.close).length = w.length := List.length_map w Bar.close
  refine ⟨?_, ?_, rfl, fun wk mo => rfl⟩
  · simp only [bigCycleToken, hw, if_true, hlen]
    rw [if_pos (by omega : 19 ≤ w.length)]
    have hplen : ((w.map Bar.close).drop (w.length - 19) ++ [cp]).length = 20 := by
      rw [List.length_append, List.length_drop, hlen, List.length_singleton]; omega
    rw [if_pos (by rw [hplen] : 20 ≤ ((w.map Bar.close).drop (w.length - 19) ++ [cp]).length)]
    rw [hplen]
    norm_num
  · intro w' hlt
    simp only [bigCycleToken, if_neg (by omega : ¬ 20 ≤ w'.length)]

/-- Claim C7 (witness): with current price 21 and the 20-period series
of `C7w` the token is ABOVE (mean (19 × 20 + 21)/20 = 20.05 ≤ 21);
a 5-period prefix yields "-". -/
theorem C7_witness :
    bigCycleToken 21 (some C7w) = "YES" ∧
    bigCycleToken 21 (some (C7w.take 5)) = "-" := by
  have h := C7_amended 21 C7w (by decide)
  constructor
  · rw [h.1]
    norm_num [C7w, List.range_succ]
  · exact h.2.1 _ (by decide)

/-- Claim C4 (counterexample): an acquisition strategy that raises an
unrecoverable `ValueError` does not propagate to the caller of
`fetch_index`: the top-level `except Exception` handler converts it to
a null result, so the call completes normally with `None`. -/
theorem C4_counterexample :
    fetch_index_run (fun _ => Except.error PyErr.valueError) "hk" = Except.ok none ∧
    fetch_index_run (fun _ => Except.error PyErr.valueError) "hk" ≠
      Except.error PyErr.valueError := by
  refine ⟨rfl, ?_⟩
  intro h
  rw [show fetch_index_run (fun _ => Except.error PyErr.valueError) "hk" = Except.ok none
    from rfl] at h
  exact Except.noConfusion h

/-- Claim C4 (amended): every error raised during acquisition —
recoverable or not — is caught by `fetch_index`'s top-level handler
and converted to a null (unavailable) result; no error propagates to
the caller. -/
theorem C4_amended (strategies : String → Except PyErr (Option (List Bar)))
    (source : String) (e : PyErr) (h : strategies source = Except.error e) :
    fetch_index strategies source = none ∧
    fetch_index_run strategies source = Except.ok none := by
  unfold fetch_index_run fetch_index fetch_index_body
  by_cases hs : source ∈ knownSources
  · simp [hs, h]
  · simp [hs]

/-- Claim C4 (witness): `C4_amended` at the concrete raising strategy
and the "hk" source designator. -/
theorem C4_witness :
    fetch_index (fun _ => Except.error PyErr.keyError) "hk" = none ∧
    fetch_index_run (fun _ => Except.error PyErr.keyError) "hk" = Except.ok none :=
  C4_amended (fun _ => Except.error PyErr.keyError) "hk" PyErr.keyError rfl

/-- Claim C3 (counterexample): with a primary strategy that always
raises a recoverable timeout and a secondary returning a 25-bar
series, the primary is invoked exactly once and no inter-attempt delay
is slept — contradicting the claim's "(retry budget + 1) attempts with
linearly increasing delay" for every positive retry budget (already at
budget 1 the prescribed count is 2 and the delay schedule nonempty). -/
theorem C3_counterexample :
    (fetch_hk_index (Except.error PyErr.timeout) (Except.ok (some C3sec)) 300).primaryCalls
      = 1 ∧
    (fetch_hk_index (Except.error PyErr.timeout) (Except.ok (some C3sec)) 300).sleeps = [] ∧
    (fetch_hk_index (Except.error PyErr.timeout) (Except.ok (some C3sec)) 300).primaryCalls
      ≠ specRetryCalls 1 ∧
    specRetryDelays 1 5 ≠ [] := by
  exact ⟨rfl, rfl, by decide, by decide⟩

/-- Claim C3 (amended): when the primary strategy raises (in particular
a recoverable timeout) and the secondary returns a well-formed,
date-sorted series of at most `days` bars, the fetch returns exactly
the secondary's bars, and the primary is called exactly once with no
delay — the fetcher has no retry loop, i.e. it behaves as the spec's
retry discipline with a budget of zero retries. -/
theorem C3_amended (e : PyErr) (f : RawFrame) (days : Nat)
    (hd : f.hasDate = true) (hc : f.hasClose = true)
    (ho : f.hasOpen = true) (hh : f.hasHigh = true) (hl : f.hasLow = true)
    (hne : f.rows ≠ [])
    (hsorted : sortBars f.rows = f.rows)
    (hdays : f.rows.length ≤ days) :
    (fetch_hk_index (Except.error e) (Except.ok (some f)) days).result = some f.rows ∧
    (fetch_hk_index (Except.error e) (Except.ok (some f)) days).primaryCalls
      = specRetryCalls 0 ∧
    (fetch_hk_index (Except.error e) (Except.ok (some f)) days).sleeps
      = specRetryDelays 0 1 := by
  refine ⟨?_, rfl, rfl⟩
  have hemp : f.rows.isEmpty = false := by
    cases hr : f.rows with
    | nil => exact absurd hr hne
    | cons a t => rfl
  simp only [fetch_hk_index, fetch_hk_index_sina, hemp, Bool.false_eq_true, if_false,
    hd, hc, Bool.and_self, if_true]
  have hnorm : normalizeFrame f days = f.rows := by
    unfold normalizeFrame
    simp only [ho, hh, hl, if_true]
    have hmap : f.rows.map (fun r => Bar.mk r.date r.close r.opn r.high r.low) = f.rows := by
      have : (fun r : Bar => Bar.mk r.date r.close r.opn r.high r.low) = fun r => r := by
        funext r; rfl
      rw [this, List.map_id']
    rw [hmap, hsorted]
    have : f.rows.length - days = 0 := by omega
    rw [this, List.drop_zero]
  rw [hnorm]

/-- Claim C3 (witness): `C3_amended` at the concrete timeout-raising
primary and the 25-bar secondary frame `C3sec` with a 300-bar
request. -/
theorem C3_witness :
    (fetch_hk_index (Except.error PyErr.timeout) (Except.ok (some C3sec)) 300).result
      = some C3sec.rows ∧
    (fetch_hk_index (Except.error PyErr.timeout) (Except.ok (some C3sec)) 300).primaryCalls
      = specRetryCalls 0 ∧
    (fetch_hk_index (Except.error PyErr.timeout) (Except.ok (some C3sec)) 300).sleeps
      = specRetryDelays 0 1 :=
  C3_amended PyErr.timeout C3sec 300 rfl rfl rfl rfl rfl (by decide) (by decide) (by decide)

theorem assignRanks_cons (s : Nat) (x : RItem) (t : List RItem) :
    assignRanks s (x :: t) = setRank x s :: assignRanks (s + 1) t := by
  unfold assignRanks
  rw [List.length_cons, List.range'_succ]
  rfl

theorem assignRanks_length (s : Nat) (l : List RItem) :
    (assignRanks s l).length = l.length := by
  unfold assignRanks
  rw [List.length_zipWith, List.length_range']
  exact Nat.min_self _

theorem map_rank_assignRanks (s : Nat) (l : List RItem) :
    (assignRanks s l).map RItem.rank = List.range' s l.length := by
  induction l generalizing s with
  | nil => rfl
  | cons x t ih =>
    rw [assignRanks_cons, List.map_cons, ih, List.length_cons, List.range'_succ]
    rfl

theorem map_strip_assignRanks (s : Nat) (l : List RItem) :
    (assignRanks s l).map stripRank = l.map stripRank := by
  induction l generalizing s with
  | nil => rfl
  | cons x t ih =>
    rw [assignRanks_cons, List.map_cons, List.map_cons, ih]
    rfl

theorem mem_assignRanks (s : Nat) (l : List RItem) (r : RItem)
    (h : r ∈ assignRanks s l) : ∃ x ∈ l, ∃ k, s ≤ k ∧ r = setRank x k := by
  induction l generalizing s with
  | nil => cases h
  | cons x t ih =>
    rw [assignRanks_cons] at h
    rcases List.mem_cons.mp h with h1 | h1
    · exact ⟨x, List.mem_cons_self x t, s, le_refl s, h1⟩
    · obtain ⟨y, hy, k, hk, hr⟩ := ih (s + 1) h1
      exact ⟨y, List.mem_cons_of_mem x hy, k, by omega, hr⟩

theorem pairwise_assignRanks (s : Nat) (l : List RItem)
    (h : List.Pairwise devGe l) : List.Pairwise devGe (assignRanks s l) := by
  induction l generalizing s with
  | nil => exact List.Pairwise.nil
  | cons x t ih =>
    rw [assignRanks_cons]
    rcases List.pairwise_cons.mp h with ⟨hx, ht⟩
    refine List.pairwise_cons.mpr ⟨?_, ih (s + 1) ht⟩
    intro y hy
    obtain ⟨y0, hy0, k, _, hyk⟩ := mem_assignRanks (s + 1) t y hy
    have := hx y0 hy0
    rw [hyk]
    exact this

/-- Error items appear in the ranking output only after all valid
items: their rank exceeds the number of valid items (shared by the
ranking and pipeline-policy claims). -/
theorem rankedLast (items : List RItem)
    (hc : ∀ r ∈ items, r.error.isSome ↔ r.deviation.isNone)
    (r : RItem) (hr : r ∈ sort_by_deviation items) (he : r.error.isSome) :
    (items.filter (fun x => x.deviation.isSome)).length < r.rank := by
  unfold sort_by_deviation at hr
  have hlen : (List.insertionSort devGe
      (items.filter (fun x => x.deviation.isSome))).length =
      (items.filter (fun x => x.deviation.isSome)).length :=
    (List.perm_insertionSort devGe _).length_eq
  rcases List.mem_append.mp hr with h1 | h1
  · exfalso
    obtain ⟨x, hx, k, _, hxk⟩ := mem_assignRanks _ _ r h1
    have hxv : x ∈ items.filter (fun y => y.deviation.isSome) :=
      (List.mem_insertionSort devGe).mp hx
    rcases List.mem_filter.mp hxv with ⟨hxi, hxs⟩
    have herr : x.error.isSome := by rw [hxk] at he; exact he
    have := (hc x hxi).mp herr
    rw [Option.isNone_iff_eq_none] at this
    rw [this] at hxs
    simp at hxs
  · obtain ⟨x, hx, k, hk, hxk⟩ := mem_assignRanks _ _ r h1
    have : r.rank = k := by rw [hxk]; rfl
    rw [this]
    omega

/-- Claim C5 (confirmed): the ranking output carries the ranks
1 .. N+M in order (so the N valid entries receive exactly 1 .. N and
the M error entries N+1 .. N+M, appended after them); its first N
entries are the valid entries sorted weakly descending by deviation;
its remaining entries are the error entries in their original order;
and an error entry never receives a rank ≤ N. -/
theorem C5_ranking (items : List RItem)
    (hc : ∀ r ∈ items, r.error.isSome ↔ r.deviation.isNone) :
    ((sort_by_deviation items).map RItem.rank =
      List.range' 1 ((items.filter (fun r => r.deviation.isSome)).length +
        (items.filter (fun r => !r.deviation.isSome)).length)) ∧
    List.Pairwise devGe
      ((sort_by_deviation items).take
        (items.filter (fun r => r.deviation.isSome)).length) ∧
    (((sort_by_deviation items).take
        (items.filter (fun r => r.deviation.isSome)).length).map stripRank).Perm
      ((items.filter (fun r => r.deviation.isSome)).map stripRank) ∧
    ((sort_by_deviation items).drop
        (items.filter (fun r => r.deviation.isSome)).length).map stripRank =
      (items.filter (fun r => !r.deviation.isSome)).map stripRank ∧
    (∀ r ∈ sort_by_deviation items, r.error.isSome →
      (items.filter (fun x => x.deviation.isSome)).length < r.rank) := by
  have hlen : (List.insertionSort devGe
      (items.filter (fun x => x.deviation.isSome))).length =
      (items.filter (fun x => x.deviation.isSome)).length :=
    (List.perm_insertionSort devGe _).length_eq
  have hA : (assignRanks 1 (List.insertionSort devGe
      (items.filter (fun x => x.deviation.isSome)))).length =
      (items.filter (fun x => x.deviation.isSome)).length := by
    rw [assignRanks_length, hlen]
  refine ⟨?_, ?_, ?_, ?_, rankedLast items hc⟩
  · unfold sort_by_deviation
    rw [List.map_append, map_rank_assignRanks, map_rank_assignRanks, hlen,
      Nat.add_comm (items.filter (fun x => x.deviation.isSome)).length 1,
      List.range'_append_1]
    congr 1
    omega
  · unfold sort_by_deviation
    rw [← hA, List.take_left]
    exact pairwise_assignRanks 1 _
      (List.sorted_insertionSort devGe (items.filter (fun x => x.deviation.isSome)))
  · unfold sort_by_deviation
    rw [← hA, List.take_left, map_strip_assignRanks]
    exact ((List.perm_insertionSort devGe _).map stripRank)
  · unfold sort_by_deviation
    rw [← hA, List.drop_left, map_strip_assignRanks]

/-- Claim C5 (witness): three valid snapshots and one error snapshot
receive the ranks 1, 2, 3, 4 in output order, and the error snapshot's
rank exceeds 3. -/
theorem C5_witness :
    (sort_by_deviation C5items).map RItem.rank = [1, 2, 3, 4] ∧
    (∀ r ∈ sort_by_deviation C5items, r.error.isSome →
      (C5items.filter (fun x => x.deviation.isSome)).length < r.rank) := by
  have h := C5_ranking C5items (by decide)
  refine ⟨?_, h.2.2.2.2⟩
  rw [h.1]
  decide

theorem failRate_iff (f t : Nat) (ht : 0 < t) :
    ((f : ℚ) / (t : ℚ) > 1 / 3) ↔ 3 * f > t := by
  have ht' : (0 : ℚ) < (t : ℚ) := by exact_mod_cast ht
  rw [gt_iff_lt, div_lt_div_iff₀ (by norm_num : (0:ℚ) < 3) ht']
  constructor
  · intro h
    have h2 : (t : ℚ) < 3 * (f : ℚ) := by linarith
    exact_mod_cast h2
  · intro h
    have h2 : (t : ℚ) < 3 * (f : ℚ) := by exact_mod_cast h
    linarith

/-- Claim C8 (confirmed): with at least one tracked instrument, the run
aborts exactly when the failed fraction strictly exceeds one third —
in particular whenever every instrument failed — and otherwise
completes, with every failed instrument still present in the ranked
output at a rank after all valid instruments. -/
theorem C8_failure_policy (rs : List RItem) (hT : 0 < rs.length)
    (hc : ∀ r ∈ rs, r.error.isSome ↔ r.deviation.isNone) :
    (mainAborts rs = true ↔ 3 * failedCount rs > rs.length) ∧
    (failedCount rs = rs.length → mainAborts rs = true) ∧
    (mainAborts rs = false →
      ∀ r ∈ rs, r.error.isSome →
        ∃ q ∈ sort_by_deviation rs, stripRank q = stripRank r ∧
          (rs.filter (fun x => x.deviation.isSome)).length < q.rank) := by
  have hiff : mainAborts rs = true ↔ 3 * failedCount rs > rs.length := by
    unfold mainAborts
    rw [Bool.or_eq_true, Bool.and_eq_true, decide_eq_true_iff, decide_eq_true_iff,
      beq_iff_eq]
    constructor
    · rintro (⟨_, hrate⟩ | hfe)
      · exact (failRate_iff _ _ hT).mp hrate
      · omega
    · intro h3
      exact Or.inl ⟨hT, (failRate_iff _ _ hT).mpr h3⟩
  refine ⟨hiff, fun hfe => hiff.mpr (by omega), ?_⟩
  intro _ r hr he
  have hdev : r.deviation.isNone := (hc r hr).mp he
  have herr : r ∈ rs.filter (fun x => !x.deviation.isSome) := by
    refine List.mem_filter.mpr ⟨hr, ?_⟩
    rcases hd : r.deviation with _ | v
    · rfl
    · rw [hd] at hdev; simp at hdev
  have hmem : stripRank r ∈ (rs.filter (fun x => !x.deviation.isSome)).map stripRank :=
    List.mem_map_of_mem stripRank herr
  rw [← map_strip_assignRanks ((List.insertionSort devGe
    (rs.filter (fun x => x.deviation.isSome))).length + 1)] at hmem
  obtain ⟨q, hq, hqe⟩ := List.mem_map.mp hmem
  refine ⟨q, ?_, hqe, ?_⟩
  · unfold sort_by_deviation
    exact List.mem_append_right _ hq
  · obtain ⟨x, _, k, hk, hxk⟩ := mem_assignRanks _ _ q hq
    have hrank : q.rank = k := by rw [hxk]; rfl
    have hlen : (List.insertionSort devGe
        (rs.filter (fun x => x.deviation.isSome))).length =
        (rs.filter (fun x => x.deviation.isSome)).length :=
      (List.perm_insertionSort devGe _).length_eq
    omega

/-- Claim C8 (witness): with one failed instrument out of three the
fraction is exactly one third, the run does not abort, and the failed
instrument appears in the output ranked after the two valid ones. -/
theorem C8_witness :
    mainAborts C8rs = false ∧
    (∀ r ∈ C8rs, r.error.isSome →
      ∃ q ∈ sort_by_deviation C8rs, stripRank q = stripRank r ∧
        (C8rs.filter (fun x => x.deviation.isSome)).length < q.rank) := by
  have h := C8_failure_policy C8rs (by decide) (by decide)
  have hf : ¬ (3 * failedCount C8rs > C8rs.length) := by decide
  have hfalse : mainAborts C8rs = false := by
    cases hb : mainAborts C8rs
    · rfl
    · exact absurd (h.1.mp hb) hf
  exact ⟨hfalse, h.2.2 hfalse⟩

theorem bigCycleToken_short (cp : ℚ) (w : List Bar) (h : w.length < 20) :
    bigCycleToken cp (some w) = "-" := by
  simp only [bigCycleToken, if_neg (by omega : ¬ 20 ≤ w.length)]

theorem bigCycleToken_formula (cp : ℚ) (w : List Bar) (hw : 20 ≤ w.length) :
    bigCycleToken cp (some w) =
      (if cp ≥ (((w.map Bar.close).drop (w.length - 19)).sum + cp) / 20
       then "YES" else "NO") := by
  have hlen : (w.map Bar.close).length = w.length := List.length_map w Bar.close
  simp only [bigCycleToken, hw, if_true, hlen]
  rw [if_pos (by omega : 19 ≤ w.length)]
  have hplen : ((w.map Bar.close).drop (w.length - 19) ++ [cp]).length = 20 := by
    rw [List.length_append, List.length_drop, hlen, List.length_singleton]; omega
  rw [if_pos (by rw [hplen] :
    20 ≤ ((w.map Bar.close).drop (w.length - 19) ++ [cp]).length)]
  rw [hplen]
  norm_num

theorem bigCycleToken_const (cp : ℚ) (w : List Bar) (h20 : 20 ≤ w.length)
    (hc : w.map Bar.close = List.replicate w.length cp) :
    bigCycleToken cp (some w) = "YES" := by
  rw [bigCycleToken_formula cp w h20, hc, List.drop_replicate]
  have h19 : w.length - (w.length - 19) = 19 := by omega
  rw [h19, List.sum_replicate]
  have : ((19 : ℕ) • cp + cp) / 20 = cp := by
    rw [nsmul_eq_mul]
    push_cast
    ring
  rw [this, if_pos (le_refl cp)]

theorem calcDailyCore_big (lb : Nat) (df : List Bar) (cp : Option ℚ) :
    (calcDailyCore lb df cp).big_cycle_status = "-" := by
  simp only [calcDailyCore]
  split_ifs <;> try rfl
  all_goals split <;> rfl

theorem calculate_all_metrics_big (lb : Nat) (df : List Bar) (cp : Option ℚ)
    (w m : Option (List Bar)) :
    (calculate_all_metrics lb df cp w m).big_cycle_status =
      (if (calcDailyCore lb df cp).error.isSome then "-"
       else calculate_big_cycle_status ((calcDailyCore lb df cp).current_price.getD 0) w m) := by
  simp only [calculate_all_metrics, setBigCycle]
  split_ifs with h
  · exact calcDailyCore_big lb df cp
  · rfl

theorem calcDailyCore_error_none (df : List Bar) (h20 : 20 ≤ df.length)
    (hs : sortBars df = df) : (calcDailyCore 250 df none).error = none := by
  have hne : df.isEmpty = false := by
    cases df with
    | nil => simp at h20
    | cons a t => rfl
  have hlen : (df.map Bar.close).length = df.length := List.length_map df Bar.close
  have hnl : ¬ df.length < 20 := by omega
  simp only [calcDailyCore, hne, Bool.false_eq_true, if_false, hs, hnl, hlen]
  rw [calculate_ma20_of_len20 _ (by rw [List.length_drop, hlen]; omega)]

theorem calcDailyCore_current_price (df : List Bar) (h20 : 20 ≤ df.length)
    (hs : sortBars df = df) :
    (calcDailyCore 250 df none).current_price = some ((df.map Bar.close).getLastD 0) := by
  have hne : df.isEmpty = false := by
    cases df with
    | nil => simp at h20
    | cons a t => rfl
  have hlen : (df.map Bar.close).length = df.length := List.length_map df Bar.close
  have hnl : ¬ df.length < 20 := by omega
  simp only [calcDailyCore, hne, Bool.false_eq_true, if_false, hs, hnl, hlen]
  rw [calculate_ma20_of_len20 _ (by rw [List.length_drop, hlen]; omega)]

/-- Claim C9 (amended): for every fetched series and every target date,
the backfill snapshot (truncating the daily series and the pre-derived
weekly/monthly series) agrees with the live-pipeline snapshot on the
naturally-ending series in every field except possibly
`big_cycle_status`: current price, previous close, MA20, status,
change%, deviation%, change date, change-day MA20, interval change and
error are all identical.  (The big-cycle field can differ, because the
backfill truncates the weekly/monthly series derived from the full
series instead of re-deriving them from the truncated daily series.) -/
theorem C9_amended (cs : List Bar) (target : Date) :
    (backfillSnapshotAtDate cs target).current_price
      = (liveSnapshotAtDate cs target).current_price ∧
    (backfillSnapshotAtDate cs target).prev_close
      = (liveSnapshotAtDate cs target).prev_close ∧
    (backfillSnapshotAtDate cs target).ma20 = (liveSnapshotAtDate cs target).ma20 ∧
    (backfillSnapshotAtDate cs target).status = (liveSnapshotAtDate cs target).status ∧
    (backfillSnapshotAtDate cs target).change = (liveSnapshotAtDate cs target).change ∧
    (backfillSnapshotAtDate cs target).deviation
      = (liveSnapshotAtDate cs target).deviation ∧
    (backfillSnapshotAtDate cs target).change_date
      = (liveSnapshotAtDate cs target).change_date ∧
    (backfillSnapshotAtDate cs target).change_price
      = (liveSnapshotAtDate cs target).change_price ∧
    (backfillSnapshotAtDate cs target).interval_change
      = (liveSnapshotAtDate cs target).interval_change ∧
    (backfillSnapshotAtDate cs target).error = (liveSnapshotAtDate cs target).error := by
  unfold backfillSnapshotAtDate liveSnapshotAtDate
  have h1 := calculate_all_metrics_core_fields 250 (simulate_data_at_date cs target) none
    (some (simulate_data_at_date (process_weekly_data cs) target))
    (some (simulate_data_at_date (process_monthly_data cs) target))
  have h2 := calculate_all_metrics_core_fields 250 (simulate_data_at_date cs target) none
    (some (process_weekly_data (simulate_data_at_date cs target)))
    (some (process_monthly_data (simulate_data_at_date cs target)))
  exact ⟨h1.1.trans h2.1.symm,
    h1.2.1.trans h2.2.1.symm,
    h1.2.2.1.trans h2.2.2.1.symm,
    h1.2.2.2.1.trans h2.2.2.2.1.symm,
    h1.2.2.2.2.1.trans h2.2.2.2.2.1.symm,
    h1.2.2.2.2.2.1.trans h2.2.2.2.2.2.1.symm,
    h1.2.2.2.2.2.2.1.trans h2.2.2.2.2.2.2.1.symm,
    h1.2.2.2.2.2.2.2.1.trans h2.2.2.2.2.2.2.2.1.symm,
    h1.2.2.2.2.2.2.2.2.1.trans h2.2.2.2.2.2.2.2.2.1.symm,
    h1.2.2.2.2.2.2.2.2.2.trans h2.2.2.2.2.2.2.2.2.2.symm⟩

/-- Claim C9 (counterexample): on 20 Wednesday bars ending at the
target date 2025-05-14, the backfill path truncates the derived weekly
series to 19 periods (the open week's Sunday label 2025-05-18 exceeds
the target) and reports big-cycle "---", while the live pipeline on
the naturally-ending series derives 20 weekly periods and reports
"YES--": the two Metrics Snapshots differ. -/
theorem C9_counterexample :
    (backfillSnapshotAtDate C9cs ⟨2025, 5, 14⟩).big_cycle_status = "---" ∧
    (liveSnapshotAtDate C9cs ⟨2025, 5, 14⟩).big_cycle_status = "YES--" ∧
    backfillSnapshotAtDate C9cs ⟨2025, 5, 14⟩ ≠ liveSnapshotAtDate C9cs ⟨2025, 5, 14⟩ := by
  have hS : simulate_data_at_date C9cs ⟨2025, 5, 14⟩ = C9cs := by decide
  have h20 : 20 ≤ C9cs.length := by decide
  have hsort : sortBars C9cs = C9cs := by decide
  have herr := calcDailyCore_error_none C9cs h20 hsort
  have hcp := calcDailyCore_current_price C9cs h20 hsort
  have hcp10 : (calcDailyCore 250 C9cs none).current_price.getD 0 = 10 := by
    rw [hcp]
    decide
  have hb1 : (backfillSnapshotAtDate C9cs ⟨2025, 5, 14⟩).big_cycle_status = "---" := by
    unfold backfillSnapshotAtDate
    rw [hS, calculate_all_metrics_big, herr]
    simp only [Option.isSome_none, Bool.false_eq_true, if_false, hcp10]
    unfold calculate_big_cycle_status
    rw [bigCycleToken_short 10 _ (by decide :
        (simulate_data_at_date (process_weekly_data C9cs) ⟨2025, 5, 14⟩).length < 20),
      bigCycleToken_short 10 _ (by decide :
        (simulate_data_at_date (process_monthly_data C9cs) ⟨2025, 5, 14⟩).length < 20)]
    rfl
  have hl1 : (liveSnapshotAtDate C9cs ⟨2025, 5, 14⟩).big_cycle_status = "YES--" := by
    unfold liveSnapshotAtDate
    rw [hS, calculate_all_metrics_big, herr]
    simp only [Option.isSome_none, Bool.false_eq_true, if_false, hcp10]
    unfold calculate_big_cycle_status
    rw [bigCycleToken_const 10 (process_weekly_data C9cs)
        (by decide) (by decide),
      bigCycleToken_short 10 _ (by decide :
        (process_monthly_data C9cs).length < 20)]
    rfl
  refine ⟨hb1, hl1, fun h => ?_⟩
  have := congrArg Metrics.big_cycle_status h
  rw [hb1, hl1] at this
  exact absurd this (by decide)

theorem mem_resampleBy (label : Date → Date) (cs : List Bar) (b : Bar)
    (h : b ∈ resampleBy label cs) :
    (∃ x ∈ cs, label x.date = b.date) ∧
    b = aggBar b.date (cs.filter (fun x => decide (label x.date = b.date))) := by
  unfold resampleBy at h
  obtain ⟨L, hL, hb⟩ := List.mem_map.mp h
  have hdate : b.date = L := by rw [← hb]; rfl
  obtain ⟨x, hx, hxL⟩ := List.mem_map.mp (List.mem_dedup.mp hL)
  refine ⟨⟨x, hx, by rw [hdate]; exact hxL⟩, ?_⟩
  rw [hdate]
  exact hb.symm

/-- Claim C10 (confirmed): resampling the same series twice yields
identical derived series; every weekly output bar is dated a Sunday
and every monthly output bar the last calendar day of its month — the
bin of an input bar is fixed by the calendar label of its own date
alone, so missing trading days inside a window do not move its
boundary; every output bar aggregates exactly its bin's members
(open = first member, high = max, low = min, close = last member); and
only non-empty bins produce bars. -/
theorem C10_resampler (cs : List Bar) (hv : ∀ b ∈ cs, ValidDate b.date) :
    (resampleWeekly cs = resampleWeekly cs ∧ resampleMonthly cs = resampleMonthly cs) ∧
    (∀ b ∈ resampleWeekly cs,
      weekday b.date = 6 ∧
      cs.filter (fun x => decide (sundayOnOrAfter x.date = b.date)) ≠ [] ∧
      b = aggBar b.date (cs.filter (fun x => decide (sundayOnOrAfter x.date = b.date)))) ∧
    (∀ b ∈ resampleMonthly cs,
      b.date.d = daysInMonth b.date.y b.date.m ∧
      cs.filter (fun x => decide (monthEnd x.date = b.date)) ≠ [] ∧
      b = aggBar b.date (cs.filter (fun x => decide (monthEnd x.date = b.date)))) := by
  refine ⟨⟨rfl, rfl⟩, ?_, ?_⟩
  · intro b hb
    obtain ⟨⟨x, hx, hxL⟩, hagg⟩ := mem_resampleBy sundayOnOrAfter cs b hb
    refine ⟨?_, ?_, hagg⟩
    · rw [← hxL]
      exact weekday_sundayOnOrAfter x.date (hv x hx)
    · refine List.ne_nil_of_mem (a := x) ?_
      exact List.mem_filter.mpr ⟨hx, by rw [hxL]; exact decide_eq_true rfl⟩
  · intro b hb
    obtain ⟨⟨x, hx, hxL⟩, hagg⟩ := mem_resampleBy monthEnd cs b hb
    refine ⟨?_, ?_, hagg⟩
    · rw [← hxL]
      rfl
    · refine List.ne_nil_of_mem (a := x) ?_
      exact List.mem_filter.mpr ⟨hx, by rw [hxL]; exact decide_eq_true rfl⟩

/-- Claim C10 (witness): a Wednesday 2025-01-01 bar resamples into the
weekly bar labelled Sunday 2025-01-05 carrying its own OHLC values. -/
theorem C10_witness :
    weekday ((Bar.mk ⟨2025, 1, 5⟩ 1 2 3 4).date) = 6 ∧
    C10wit.filter
      (fun x => decide (sundayOnOrAfter x.date = (Bar.mk ⟨2025, 1, 5⟩ 1 2 3 4).date)) ≠ [] ∧
    Bar.mk ⟨2025, 1, 5⟩ 1 2 3 4 =
      aggBar (Bar.mk ⟨2025, 1, 5⟩ 1 2 3 4).date
        (C10wit.filter
          (fun x => decide (sundayOnOrAfter x.date = (Bar.mk ⟨2025, 1, 5⟩ 1 2 3 4).date))) :=
  (C10_resampler C10wit (by decide)).2.1 (Bar.mk ⟨2025, 1, 5⟩ 1 2 3 4) (by decide)
